import Mathlib

/- Shallow embedding of the policy gate in
   src/mcp_agents/servicenow_table_sse_server.py: the RAG validator
   (query_validator) and the guarded HTTP client wrapper
   (GuardedAsyncClient.request).  External collaborators — the Chroma
   similarity search (which embeds the query internally), the OpenAI
   structured-output call, and the underlying httpx transport — are
   modelled as function parameters; Python exceptions raised by those
   collaborators are modelled with Except.  Logging calls are side
   effects with no influence on control flow and are not modelled. -/

/-- A document retrieved from the Chroma vector store; the gate only
reads its page_content field. -/
structure Document where
  page_content : String
deriving Repr, DecidableEq

/-- The pydantic structured-output schema declared inside
query_validator: exactly two fields, approval defaulting to false and
reason defaulting to the empty string. -/
structure Approval where
  approval : Bool := false
  reason : String := ""
deriving Repr, DecidableEq

/-- Pydantic population of the Approval model from possibly-missing
fields of the structured output: a missing field takes the declared
default of the schema. -/
def Approval.ofFields (a : Option Bool) (r : Option String) : Approval :=
  { approval := a.getD false, reason := r.getD "" }

/-- Python exceptions that the external collaborators may raise, plus
the RuntimeError raised by the guarded client itself. -/
inductive GateError where
  | embeddingFailure (msg : String)
  | indexUnreachable (msg : String)
  | oracleFailure (msg : String)
  | runtimeError (msg : String)
deriving Repr, DecidableEq

/-- The external collaborators used by query_validator:
similarity_search is the vector-store query (it computes the query
embedding internally, so embedding failures surface here) and
responses_parse is the OpenAI structured-output call, taking the system
prompt and the user query.  Either may raise. -/
structure GateEnv where
  similarity_search : String → Nat → Except GateError (List Document)
  responses_parse : String → String → Except GateError Approval

/-- Context block built in query_validator: the page_content of the
retrieved documents joined by blank lines. -/
def buildContext (docs : List Document) : String :=
  String.intercalate "\n\n" (docs.map Document.page_content)

/-- Text of the system prompt before the interpolated context. -/
def promptHead : String :=
  "\n    You are a helpful assistant that validates a user\x27s API call requests\n    Use ONLY the following context to answer the question.\n    If the answer is not contained in the context, say you don\x27t know.\n    Whenever using a tool, ALWAYS include the user\x27s original query in the users_original_query\n\n    CONTEXT:\n    "

/-- Text of the system prompt after the interpolated context. -/
def promptTail : String :=
  "\n    "

/-- The f-string system prompt of query_validator with the context
block interpolated. -/
def system_prompt (context : String) : String :=
  promptHead ++ context ++ promptTail

/-- The decision parsed from the oracle inside query_validator
(response.output_parsed): retrieve the top k=4 documents, build the
context and system prompt, and submit both to the structured-output
call.  Errors raised by the collaborators propagate, as the Python has
no try/except. -/
def query_validator_decision (env : GateEnv) (query : String) :
    Except GateError Approval :=
  match env.similarity_search query 4 with
  | Except.error e => Except.error e
  | Except.ok docs =>
      env.responses_parse (system_prompt (buildContext docs)) query

/-- query_validator: returns response.output_parsed.approval, a bare
bool; the reason is only logged. -/
def query_validator (env : GateEnv) (query : String) :
    Except GateError Bool :=
  match query_validator_decision env query with
  | Except.error e => Except.error e
  | Except.ok a => Except.ok a.approval

/-- Python values, as far as the guarded client inspects or renders
them: the json keyword argument and the positional arguments. -/
inductive PyVal where
  | none
  | bool (b : Bool)
  | int (n : Int)
  | str (s : String)
  | list (xs : List PyVal)
  | dict (xs : List (String × PyVal))
deriving Repr

/-- Python truthiness of a value, as tested by the `if not body` line. -/
def truthy : PyVal → Bool
  | PyVal.none => false
  | PyVal.bool b => b
  | PyVal.int n => n != 0
  | PyVal.str s => s != ""
  | PyVal.list xs => !xs.isEmpty
  | PyVal.dict xs => !xs.isEmpty

mutual

/-- Python repr() of a value: the rendering str() of a dict or list
applies to its elements. -/
def pyRepr : PyVal → String
  | PyVal.none => "None"
  | PyVal.bool true => "True"
  | PyVal.bool false => "False"
  | PyVal.int n => toString n
  | PyVal.str s => "\x27" ++ s ++ "\x27"
  | PyVal.list xs => "[" ++ pyReprItems xs ++ "]"
  | PyVal.dict xs => "\x7b" ++ pyReprPairs xs ++ "\x7d"

/-- Comma-separated repr of the items of a Python list. -/
def pyReprItems : List PyVal → String
  | [] => ""
  | [x] => pyRepr x
  | x :: y :: xs => pyRepr x ++ ", " ++ pyReprItems (y :: xs)

/-- Comma-separated repr of the entries of a Python dict with string
keys. -/
def pyReprPairs : List (String × PyVal) → String
  | [] => ""
  | [(k, v)] => "\x27" ++ k ++ "\x27: " ++ pyRepr v
  | (k, v) :: p :: xs =>
      "\x27" ++ k ++ "\x27: " ++ pyRepr v ++ ", " ++ pyReprPairs (p :: xs)

end

/-- Python str() of a value: identity on strings, repr-like otherwise. -/
def pyStr : PyVal → String
  | PyVal.str s => s
  | v => pyRepr v

/-- Keyword arguments of GuardedAsyncClient.request: the json body the
wrapper inspects, the other httpx keyword arguments it does not, and a
catch-all for further keywords.  A missing keyword is Option.none. -/
structure Kwargs where
  json : Option PyVal := Option.none
  headers : Option PyVal := Option.none
  params : Option PyVal := Option.none
  auth : Option PyVal := Option.none
  data : Option PyVal := Option.none
  others : List (String × PyVal) := []

/-- The body used for validation: kwargs.get of the json keyword, with
any falsy value (absent, None, empty dict, empty string, ...) replaced
by the empty dict. -/
def bodyOf (kwargs : Kwargs) : PyVal :=
  match kwargs.json with
  | Option.some v => if truthy v then v else PyVal.dict []
  | Option.none => PyVal.dict []

/-- The f-string natural-language validation query built inside
GuardedAsyncClient.request from the method, url and body. -/
def user_query (method url : String) (body : PyVal) : String :=
  "\n        I want to send an API request to the Table API with the following method:\n        "
    ++ method
    ++ "\n        the following url:\n        "
    ++ url
    ++ "\n        and the following body:\n        "
    ++ pyStr body
    ++ "\n        Based on the TableAPI policy, am I allowed to do so?\n        "

/-- A response of the underlying httpx transport, kept opaque. -/
structure Response where
  payload : String
deriving Repr, DecidableEq

/-- One invocation of the underlying transport (the parent
httpx.AsyncClient.request), with all arguments it received. -/
structure TransportCall where
  method : String
  url : String
  args : List PyVal
  kwargs : Kwargs

/-- GuardedAsyncClient.request: build the validation query from method,
url and the (defaulted) json body; if query_validator raises the error
propagates, if it returns false raise RuntimeError with the fixed
message, else forward method, url and all remaining arguments unchanged
to the parent transport and return its response.  The second component
records every invocation of the underlying transport. -/
def GuardedAsyncClient.request (env : GateEnv)
    (send : String → String → List PyVal → Kwargs → Response)
    (method url : String) (args : List PyVal) (kwargs : Kwargs) :
    Except GateError Response × List TransportCall :=
  let body := bodyOf kwargs
  let q := user_query method url body
  match query_validator env q with
  | Except.error e => (Except.error e, [])
  | Except.ok false =>
      (Except.error (GateError.runtimeError "Invalid User Query"), [])
  | Except.ok true =>
      (Except.ok (send method url args kwargs),
       [{ method := method, url := url, args := args, kwargs := kwargs }])

/- Concrete collaborators used to instantiate the theorems below. -/

/-- An index/embedding backend that succeeds with a single policy chunk. -/
def searchOneChunk : String → Nat → Except GateError (List Document) :=
  fun _ _ => Except.ok [{ page_content := "GET on table incident is allowed" }]

/-- An index whose similarity search returns zero chunks. -/
def searchEmpty : String → Nat → Except GateError (List Document) :=
  fun _ _ => Except.ok []

/-- An oracle call that fails (timeout). -/
def oracleFail : String → String → Except GateError Approval :=
  fun _ _ => Except.error (GateError.oracleFailure "timeout")

/-- An oracle that approves every request. -/
def oracleApprove : String → String → Except GateError Approval :=
  fun _ _ => Except.ok { approval := true, reason := "allowed by policy" }

/-- An oracle that denies every request with a reason. -/
def oracleDeny : String → String → Except GateError Approval :=
  fun _ _ => Except.ok { approval := false, reason := "deletes are forbidden" }

/-- An oracle that approves with a different reason than oracleApprove. -/
def oracleApproveOther : String → String → Except GateError Approval :=
  fun _ _ => Except.ok { approval := true, reason := "different reason" }

/-- Environment whose oracle call fails. -/
def envOracleFail : GateEnv :=
  { similarity_search := searchOneChunk, responses_parse := oracleFail }

/-- Environment with a working index and an approving oracle. -/
def envApprove : GateEnv :=
  { similarity_search := searchOneChunk, responses_parse := oracleApprove }

/-- Environment with a working index and a denying oracle. -/
def envDeny : GateEnv :=
  { similarity_search := searchOneChunk, responses_parse := oracleDeny }

/-- Environment with an empty index and an approving oracle. -/
def envEmptyApprove : GateEnv :=
  { similarity_search := searchEmpty, responses_parse := oracleApprove }

/-- Environment approving with a different reason than envApprove. -/
def envApproveOther : GateEnv :=
  { similarity_search := searchOneChunk, responses_parse := oracleApproveOther }

/-- A transport stub returning a fixed response. -/
def sendConst : String → String → List PyVal → Kwargs → Response :=
  fun _ _ _ _ => { payload := "transport response" }

/-- Whether the first character list occurs as a prefix of the second. -/
def charsPrefixOf : List Char → List Char → Bool
  | [], _ => true
  | _ :: _, [] => false
  | a :: as, b :: bs => a == b && charsPrefixOf as bs

/-- Whether the first character list occurs contiguously inside the
second. -/
def charsOccurIn : List Char → List Char → Bool
  | needle, [] => charsPrefixOf needle []
  | needle, b :: bs => charsPrefixOf needle (b :: bs) || charsOccurIn needle bs

/-- Whether the string needle occurs as a substring of hay. -/
def strOccursIn (needle hay : String) : Bool :=
  charsOccurIn needle.data hay.data

/- Claim theorems. -/

/-- C1 counterexample: when the oracle call raises, the failure is not
absorbed into a denial decision; it propagates out of query_validator
and out of GuardedAsyncClient.request as an error distinct from the
policy-violation RuntimeError. -/
theorem C1_counterexample :
    (GuardedAsyncClient.request envOracleFail sendConst "GET"
        "/api/now/table/incident" [] {}).1 =
      Except.error (GateError.oracleFailure "timeout") ∧
    (∀ b : Bool,
      query_validator envOracleFail
          (user_query "GET" "/api/now/table/incident" (bodyOf {})) ≠
        Except.ok b) ∧
    GateError.oracleFailure "timeout" ≠
      GateError.runtimeError "Invalid User Query" := by
  refine ⟨rfl, ?_, by decide⟩
  intro b h
  have key : query_validator envOracleFail
      (user_query "GET" "/api/now/table/incident" (bodyOf {})) =
      Except.error (GateError.oracleFailure "timeout") := rfl
  rw [key] at h
  exact Except.noConfusion h

/-- C1 (amended): internal gate failures are not absorbed into a denial;
an error raised by the similarity search, or by the oracle call after a
successful search, propagates unchanged out of query_validator. -/
theorem C1_errors_propagate (env : GateEnv) (q : String) (e : GateError) :
    (env.similarity_search q 4 = Except.error e →
      query_validator env q = Except.error e) ∧
    (∀ docs, env.similarity_search q 4 = Except.ok docs →
      env.responses_parse (system_prompt (buildContext docs)) q =
        Except.error e →
      query_validator env q = Except.error e) := by
  constructor
  · intro h
    simp [query_validator, query_validator_decision, h]
  · intro docs h1 h2
    simp [query_validator, query_validator_decision, h1, h2]

/-- C1 witness: instance of the amended claim at a concrete
environment whose oracle times out. -/
theorem C1_errors_propagate_witness :
    envOracleFail.similarity_search "q" 4 =
      Except.ok [{ page_content := "GET on table incident is allowed" }] ∧
    query_validator envOracleFail "q" =
      Except.error (GateError.oracleFailure "timeout") :=
  ⟨rfl,
   (C1_errors_propagate envOracleFail "q" (GateError.oracleFailure "timeout")).2
     [{ page_content := "GET on table incident is allowed" }] rfl rfl⟩

/-- C2 counterexample: two oracles whose decisions carry different
reasons produce identical return values from query_validator — the
reason is not part of the value the gate yields to its consumer. -/
theorem C2_counterexample :
    Except.map Approval.reason (query_validator_decision envApprove "q") ≠
      Except.map Approval.reason
        (query_validator_decision envApproveOther "q") ∧
    query_validator envApprove "q" = query_validator envApproveOther "q" := by
  refine ⟨?_, rfl⟩
  intro h
  have h1 : (Except.ok "allowed by policy" : Except GateError String) =
      Except.ok "different reason" := h
  exact absurd (Except.ok.inj h1) (by decide)

/-- C2 (amended): the gate returns exactly one value per evaluation,
the boolean approval field of the parsed decision; the decision always
carries a reason string, but the reason is only logged, never part of
the returned value. -/
theorem C2_returns_only_approval (env : GateEnv) (q : String) :
    query_validator env q =
      Except.map Approval.approval (query_validator_decision env q) := by
  unfold query_validator
  cases query_validator_decision env q <;> rfl

/-- C3 counterexample: on a denial whose reason is "deletes are
forbidden", the guarded client raises RuntimeError with the fixed
message "Invalid User Query"; the reason does not occur in the
message. -/
theorem C3_counterexample :
    query_validator_decision envDeny
        (user_query "DELETE" "/api/now/table/incident/123" (bodyOf {})) =
      Except.ok { approval := false, reason := "deletes are forbidden" } ∧
    (GuardedAsyncClient.request envDeny sendConst "DELETE"
        "/api/now/table/incident/123" [] {}).1 =
      Except.error (GateError.runtimeError "Invalid User Query") ∧
    strOccursIn "deletes are forbidden" "Invalid User Query" = false :=
  ⟨rfl, rfl, by decide⟩

/-- C3 (amended): a gate denial aborts the call with a RuntimeError
carrying the fixed message "Invalid User Query"; the gate reason text
is not included in the failure. -/
theorem C3_denial_fixed_message (env : GateEnv)
    (send : String → String → List PyVal → Kwargs → Response)
    (method url : String) (args : List PyVal) (kwargs : Kwargs)
    (h : query_validator env (user_query method url (bodyOf kwargs)) =
      Except.ok false) :
    GuardedAsyncClient.request env send method url args kwargs =
      (Except.error (GateError.runtimeError "Invalid User Query"), []) := by
  simp [GuardedAsyncClient.request, h]

/-- C3 witness: instance of the amended claim at a concrete denying
environment. -/
theorem C3_denial_fixed_message_witness :
    query_validator envDeny
        (user_query "DELETE" "/api/now/table/incident/1" (bodyOf {})) =
      Except.ok false ∧
    GuardedAsyncClient.request envDeny sendConst "DELETE"
        "/api/now/table/incident/1" [] {} =
      (Except.error (GateError.runtimeError "Invalid User Query"), []) :=
  ⟨rfl,
   C3_denial_fixed_message envDeny sendConst "DELETE"
     "/api/now/table/incident/1" [] {} rfl⟩

/-- C4: when the gate decision is approved=false, the underlying
transport primitive is never invoked for that call. -/
theorem C4_no_send_on_denial (env : GateEnv)
    (send : String → String → List PyVal → Kwargs → Response)
    (method url : String) (args : List PyVal) (kwargs : Kwargs)
    (h : query_validator env (user_query method url (bodyOf kwargs)) =
      Except.ok false) :
    (GuardedAsyncClient.request env send method url args kwargs).2 = [] := by
  simp [GuardedAsyncClient.request, h]

/-- C4 witness: with a denying oracle the recorded list of transport
invocations is empty. -/
theorem C4_no_send_on_denial_witness :
    query_validator envDeny
        (user_query "DELETE" "/api/now/table/incident/7" (bodyOf {})) =
      Except.ok false ∧
    (GuardedAsyncClient.request envDeny sendConst "DELETE"
        "/api/now/table/incident/7" [] {}).2 = [] :=
  ⟨rfl,
   C4_no_send_on_denial envDeny sendConst "DELETE"
     "/api/now/table/incident/7" [] {} rfl⟩

/-- C5 counterexample: with an index returning zero chunks the gate
still consults the oracle; an approving oracle yields approved=true
with its own reason, not a denial with reason "no policy context
found." -/
theorem C5_counterexample :
    envEmptyApprove.similarity_search "q" 4 = Except.ok [] ∧
    query_validator_decision envEmptyApprove "q" =
      Except.ok { approval := true, reason := "allowed by policy" } ∧
    query_validator envEmptyApprove "q" = Except.ok true ∧
    "allowed by policy" ≠ "no policy context found." :=
  ⟨rfl, rfl, rfl, by decide⟩

/-- C5 (amended): when the index returns zero chunks, the gate builds
an empty context block and still submits the prompt to the oracle; the
decision is whatever the oracle returns, with no special denial path. -/
theorem C5_empty_index_consults_oracle (env : GateEnv) (q : String)
    (h : env.similarity_search q 4 = Except.ok []) :
    query_validator_decision env q =
      env.responses_parse (system_prompt "") q := by
  simp [query_validator_decision, h, buildContext, String.intercalate]

/-- C5 witness: instance of the amended claim at the concrete empty
index. -/
theorem C5_empty_index_consults_oracle_witness :
    envEmptyApprove.similarity_search "q" 4 = Except.ok [] ∧
    query_validator_decision envEmptyApprove "q" =
      envEmptyApprove.responses_parse (system_prompt "") "q" :=
  ⟨rfl, C5_empty_index_consults_oracle envEmptyApprove "q" rfl⟩

/-- C6: the structured-output schema has exactly the two declared
fields with fail-closed defaults — a missing approval field parses to
false (a denial, never an approval) and a missing reason parses to the
empty string; the all-defaults record is the denial with empty
reason. -/
theorem C6_fail_closed_defaults :
    (∀ r, (Approval.ofFields Option.none r).approval = false) ∧
    (∀ a, (Approval.ofFields a Option.none).reason = "") ∧
    ({} : Approval) = { approval := false, reason := "" } :=
  ⟨fun _ => rfl, fun _ => rfl, rfl⟩

/-- C7: each evaluation queries the index with k=4 and submits to the
oracle a system prompt embedding the context block: the retrieved chunk
texts concatenated in retrieval (similarity-descending) order,
separated by blank lines. -/
theorem C7_retrieval_and_context (env : GateEnv) (q : String)
    (docs : List Document)
    (h : env.similarity_search q 4 = Except.ok docs) :
    query_validator_decision env q =
      env.responses_parse
        (promptHead ++
          String.intercalate "\n\n" (docs.map Document.page_content) ++
          promptTail) q := by
  simp [query_validator_decision, h, system_prompt, buildContext]

/-- C7 witness: instance at a concrete one-chunk index. -/
theorem C7_retrieval_and_context_witness :
    envApprove.similarity_search "q" 4 =
      Except.ok [{ page_content := "GET on table incident is allowed" }] ∧
    query_validator_decision envApprove "q" =
      envApprove.responses_parse
        (promptHead ++
          String.intercalate "\n\n" ["GET on table incident is allowed"] ++
          promptTail) "q" :=
  ⟨rfl,
   C7_retrieval_and_context envApprove "q"
     [{ page_content := "GET on table incident is allowed" }] rfl⟩

/-- C8: when the gate approves, the call is forwarded to the underlying
transport with method, url and all positional and keyword arguments
unchanged, and the transport result is returned unchanged. -/
theorem C8_forward_unchanged (env : GateEnv)
    (send : String → String → List PyVal → Kwargs → Response)
    (method url : String) (args : List PyVal) (kwargs : Kwargs)
    (h : query_validator env (user_query method url (bodyOf kwargs)) =
      Except.ok true) :
    GuardedAsyncClient.request env send method url args kwargs =
      (Except.ok (send method url args kwargs),
       [{ method := method, url := url, args := args, kwargs := kwargs }]) := by
  simp [GuardedAsyncClient.request, h]

/-- C8 witness: instance with an approving oracle and concrete
arguments; the transport receives exactly the original arguments and
its response is returned. -/
theorem C8_forward_unchanged_witness :
    query_validator envApprove
        (user_query "GET" "/api/now/table/incident"
          (bodyOf { json := Option.some (PyVal.dict []),
                    headers := Option.some (PyVal.str "h") })) =
      Except.ok true ∧
    GuardedAsyncClient.request envApprove sendConst "GET"
        "/api/now/table/incident" [PyVal.str "extra"]
        { json := Option.some (PyVal.dict []),
          headers := Option.some (PyVal.str "h") } =
      (Except.ok { payload := "transport response" },
       [{ method := "GET", url := "/api/now/table/incident",
          args := [PyVal.str "extra"],
          kwargs := { json := Option.some (PyVal.dict []),
                      headers := Option.some (PyVal.str "h") } }]) :=
  ⟨rfl,
   C8_forward_unchanged envApprove sendConst "GET" "/api/now/table/incident"
     [PyVal.str "extra"]
     { json := Option.some (PyVal.dict []),
       headers := Option.some (PyVal.str "h") } rfl⟩

/-- C9: against a fixed environment (deterministic embedding, index and
oracle), two evaluations of the identical (method, url, body) yield the
same parsed decision — same approval and same reason. -/
theorem C9_deterministic (env : GateEnv) (method url : String)
    (body : PyVal) (d1 d2 : Except GateError Approval)
    (h1 : d1 = query_validator_decision env (user_query method url body))
    (h2 : d2 = query_validator_decision env (user_query method url body)) :
    d1 = d2 ∧
    Except.map Approval.approval d1 = Except.map Approval.approval d2 ∧
    Except.map Approval.reason d1 = Except.map Approval.reason d2 := by
  subst h1
  subst h2
  exact ⟨rfl, rfl, rfl⟩

/-- C9 witness: two concrete evaluations of the same request against
the same environment agree. -/
theorem C9_deterministic_witness :
    query_validator_decision envApprove
        (user_query "GET" "/api/now/table/incident" (PyVal.dict [])) =
      query_validator_decision envApprove
        (user_query "GET" "/api/now/table/incident" (PyVal.dict [])) :=
  (C9_deterministic envApprove "GET" "/api/now/table/incident"
    (PyVal.dict []) _ _ rfl rfl).1

/-- C10: the validation query string the gate receives depends only on
method, url and the json keyword argument — two calls agreeing on those
produce the identical query and hence the identical gate decision — and
a missing or falsy json body is rendered as the empty dict. -/
theorem C10_gate_input_depends_only_on_json (env : GateEnv)
    (method url : String) (kwargs1 kwargs2 : Kwargs)
    (h : kwargs1.json = kwargs2.json) :
    user_query method url (bodyOf kwargs1) =
      user_query method url (bodyOf kwargs2) ∧
    query_validator env (user_query method url (bodyOf kwargs1)) =
      query_validator env (user_query method url (bodyOf kwargs2)) ∧
    ((kwargs1.json = Option.none ∨
        ∃ v, kwargs1.json = Option.some v ∧ truthy v = false) →
      pyStr (bodyOf kwargs1) = "\x7b\x7d") := by
  have hb : bodyOf kwargs1 = bodyOf kwargs2 := by
    simp [bodyOf, h]
  refine ⟨by rw [hb], by rw [hb], ?_⟩
  rintro (hn | ⟨v, hv, hf⟩)
  · simp [bodyOf, hn, pyStr, pyRepr, pyReprPairs]
  · simp [bodyOf, hv, hf, pyStr, pyRepr, pyReprPairs]

/-- C10 witness: two calls agreeing on method, url and json but
differing in headers and params give the gate the same query, and a
falsy json body renders as the empty dict. -/
theorem C10_gate_input_depends_only_on_json_witness :
    user_query "POST" "/api/now/table/incident"
        (bodyOf { json := Option.some (PyVal.dict []),
                  headers := Option.some (PyVal.str "h1") }) =
      user_query "POST" "/api/now/table/incident"
        (bodyOf { json := Option.some (PyVal.dict []),
                  params := Option.some (PyVal.str "p2") }) ∧
    pyStr (bodyOf { json := Option.some (PyVal.dict []),
                    headers := Option.some (PyVal.str "h1") }) =
      "\x7b\x7d" :=
  ⟨(C10_gate_input_depends_only_on_json envApprove "POST"
      "/api/now/table/incident"
      { json := Option.some (PyVal.dict []),
        headers := Option.some (PyVal.str "h1") }
      { json := Option.some (PyVal.dict []),
        params := Option.some (PyVal.str "p2") } rfl).1,
   (C10_gate_input_depends_only_on_json envApprove "POST"
      "/api/now/table/incident"
      { json := Option.some (PyVal.dict []),
        headers := Option.some (PyVal.str "h1") }
      { json := Option.some (PyVal.dict []),
        params := Option.some (PyVal.str "p2") } rfl).2.2
     (Or.inr ⟨PyVal.dict [], rfl, rfl⟩)⟩

